import Mathlib

/-!
Verification of the online-python command line client (`src/main.py`).

The development shallowly embeds the client's protocol engine:

* a JSON value model together with a serializer mirroring Python's
  `json.dumps` (default separators, `ensure_ascii=True`) and a parser
  mirroring `json.loads` (restricted to integer numbers, which is all the
  protocol ever carries; floats and lone surrogates are rejected rather
  than modelled);
* the session state machine `OnlinePythonClient.handle_message` translated
  branch by branch, with Python exceptions modelled as a `thrown` result,
  `os._exit` as an `exited` result, and the observable side effects
  (state-setter log lines, websocket sends, writes to stdout/stderr, the
  exit log line) collected in order as an effect list;
* the outbound encoders `send_list`, `send_files_and_run`, `send_input`
  and the stdin listener body `handle_next_user_input`.

Python-primitive behaviour that the source leans on is modelled
faithfully where the protocol can reach it: subscripting `data[0]` and
3-way unpacking `a, b, c = data` on arbitrary JSON values (lists, strings
and dicts succeed; other values raise), `'needle' in x`, `int(x)`,
`str.rstrip`, and strict UTF-8 decoding of binary websocket frames.
Logging text content is not modelled beyond the log level of the exit
line; debug/info log lines that carry no protocol decision are omitted
from the effect lists.
-/

mutual
/-- JSON values as produced by `json.loads` / consumed by `json.dumps`.
Arrays and objects use mutually inductive spine types so that all
functions below are structurally recursive (and hence kernel-reducible).
Numbers are integers: the wire protocol only ever carries integral codes,
and the parser rejects float syntax rather than modelling floats. -/
inductive Json where
  | null : Json
  | bool (b : Bool) : Json
  | num (n : Int) : Json
  | str (s : String) : Json
  | arr (xs : JsonArr) : Json
  | obj (kvs : JsonObj) : Json
  deriving DecidableEq

inductive JsonArr where
  | nil : JsonArr
  | cons (hd : Json) (tl : JsonArr) : JsonArr
  deriving DecidableEq

inductive JsonObj where
  | nil : JsonObj
  | cons (key : String) (val : Json) (tl : JsonObj) : JsonObj
  deriving DecidableEq
end

/-- Build an array spine from a Lean list. -/
def JsonArr.ofList : List Json → JsonArr
  | [] => .nil
  | x :: xs => .cons x (JsonArr.ofList xs)

/-- Build an object spine from a Lean association list (insertion order,
as a Python dict preserves it). -/
def JsonObj.ofList : List (String × Json) → JsonObj
  | [] => .nil
  | (k, v) :: kvs => .cons k v (JsonObj.ofList kvs)

/-- JSON array literal from a Lean list. -/
def jarr (xs : List Json) : Json := .arr (JsonArr.ofList xs)

/-- JSON object literal from a Lean association list. -/
def jobj (kvs : List (String × Json)) : Json := .obj (JsonObj.ofList kvs)

/-- Lower-case hexadecimal digit, as Python's `json` module emits. -/
def hexDigit (n : Nat) : Char :=
  if n < 10 then Char.ofNat (48 + n) else Char.ofNat (97 + (n - 10))

/-- Four-digit lower-case hexadecimal rendering used in JSON escapes. -/
def hex4 (n : Nat) : String :=
  String.mk [hexDigit ((n / 4096) % 16), hexDigit ((n / 256) % 16),
             hexDigit ((n / 16) % 16), hexDigit (n % 16)]

/-- Escape one character the way `json.dumps` (with its default
`ensure_ascii=True`) does: two-character escapes for the classic control
characters, quote and backslash; `\uXXXX` for other control characters
and all non-ASCII characters, using a surrogate pair beyond U+FFFF. -/
def escapeChar (c : Char) : String :=
  if c = '"' then "\\\""
  else if c = '\\' then "\\\\"
  else if c = '\n' then "\\n"
  else if c = '\t' then "\\t"
  else if c = '\r' then "\\r"
  else if c.toNat = 8 then "\\b"
  else if c.toNat = 12 then "\\f"
  else if c.toNat < 32 || c.toNat > 126 then
    if c.toNat < 65536 then "\\u" ++ hex4 c.toNat
    else
      "\\u" ++ hex4 (55296 + (c.toNat - 65536) / 1024) ++
      "\\u" ++ hex4 (56320 + (c.toNat - 65536) % 1024)
  else String.singleton c

/-- Serialize a JSON string literal with `json.dumps` escaping. -/
def dumpsString (s : String) : String :=
  "\"" ++ String.join (s.toList.map escapeChar) ++ "\""

mutual
/-- Serializer mirroring `json.dumps` with its default separators
`(', ', ': ')`, as `send_list` uses it. -/
def dumps : Json → String
  | .null => "null"
  | .bool true => "true"
  | .bool false => "false"
  | .num n => toString n
  | .str s => dumpsString s
  | .arr xs => "[" ++ dumpsArr xs ++ "]"
  | .obj kvs => "\x7b" ++ dumpsObj kvs ++ "\x7d"

def dumpsArr : JsonArr → String
  | .nil => ""
  | .cons x .nil => dumps x
  | .cons x (.cons y tl) => dumps x ++ ", " ++ dumpsArr (.cons y tl)

def dumpsObj : JsonObj → String
  | .nil => ""
  | .cons k v .nil => dumpsString k ++ ": " ++ dumps v
  | .cons k v (.cons k2 v2 tl) =>
    dumpsString k ++ ": " ++ dumps v ++ ", " ++ dumpsObj (.cons k2 v2 tl)
end

/-- Python `message[:n]` on text. -/
def pyTake (n : Nat) (s : String) : String := String.mk (s.toList.take n)

/-- Python `message[n:]` on text. -/
def pyDrop (n : Nat) (s : String) : String := String.mk (s.toList.drop n)

/-- Python `message.startswith(p)` on text. -/
def pyStartswith (p s : String) : Bool := p.toList.isPrefixOf s.toList

/-- Python `' '.join(parts)`. -/
def joinSpace : List String → String
  | [] => ""
  | [x] => x
  | x :: y :: tl => x ++ " " ++ joinSpace (y :: tl)

/-- Python `s.rstrip('\n')`: remove every trailing newline character. -/
def pyRstripNl (s : String) : String :=
  String.mk ((s.toList.reverse.dropWhile (· == '\n')).reverse)

/-- Python `needle in hay` for strings: substring containment. -/
def strContains (hay needle : String) : Bool :=
  hay.toList.tails.any (fun t => needle.toList.isPrefixOf t)

/-- Is a byte a UTF-8 continuation byte `10xxxxxx`? -/
def isContByte (b : Nat) : Bool := 128 ≤ b && b < 192

/-- Strict UTF-8 decoding of a byte list, as Python's `bytes.decode()`
performs it: rejects truncated or overlong sequences, surrogate code
points and code points above U+10FFFF. Returns the decoded characters. -/
def utf8DecodeAux : List Nat → Option (List Char)
  | [] => some []
  | b :: rest =>
    if b < 128 then
      (utf8DecodeAux rest).map (fun cs => Char.ofNat b :: cs)
    else if b < 194 then
      none
    else if b < 224 then
      match rest with
      | b1 :: rest1 =>
        if isContByte b1 then
          (utf8DecodeAux rest1).map
            (fun cs => Char.ofNat ((b - 192) * 64 + (b1 - 128)) :: cs)
        else none
      | [] => none
    else if b < 240 then
      match rest with
      | b1 :: b2 :: rest2 =>
        if isContByte b1 && isContByte b2
            && (b ≠ 224 || 160 ≤ b1)
            && (b ≠ 237 || b1 < 160) then
          (utf8DecodeAux rest2).map
            (fun cs =>
              Char.ofNat ((b - 224) * 4096 + (b1 - 128) * 64 + (b2 - 128)) :: cs)
        else none
      | _ => none
    else if b < 245 then
      match rest with
      | b1 :: b2 :: b3 :: rest3 =>
        if isContByte b1 && isContByte b2 && isContByte b3
            && (b ≠ 240 || 144 ≤ b1)
            && (b ≠ 244 || b1 < 144) then
          (utf8DecodeAux rest3).map
            (fun cs =>
              Char.ofNat ((b - 240) * 262144 + (b1 - 128) * 4096 +
                (b2 - 128) * 64 + (b3 - 128)) :: cs)
        else none
      | _ => none
    else none

/-- Python `bs.decode()`: strict UTF-8 decoding to text. -/
def utf8Decode (bs : List Nat) : Option String :=
  (utf8DecodeAux bs).map String.mk

/-- Opening brace character (kept out of literals). -/
def lbrace : Char := Char.ofNat 123

/-- Closing brace character (kept out of literals). -/
def rbrace : Char := Char.ofNat 125

/-- Skip JSON insignificant whitespace, as `json.loads` does. -/
def skipWs (cs : List Char) : List Char :=
  cs.dropWhile (fun c => c == ' ' || c == '\t' || c == '\n' || c == '\r')

/-- Value of a hexadecimal digit character. -/
def hexVal (c : Char) : Option Nat :=
  if '0' ≤ c && c ≤ '9' then some (c.toNat - 48)
  else if 'a' ≤ c && c ≤ 'f' then some (c.toNat - 87)
  else if 'A' ≤ c && c ≤ 'F' then some (c.toNat - 55)
  else none

/-- Value of a four-hex-digit escape group. -/
def hex4Val (h1 h2 h3 h4 : Char) : Option Nat :=
  match hexVal h1, hexVal h2, hexVal h3, hexVal h4 with
  | some a, some b, some c, some d => some (a * 4096 + b * 256 + c * 16 + d)
  | _, _, _, _ => none

/-- Parse the body of a JSON string literal (after the opening quote),
returning the content characters and the input after the closing quote.
Escape handling follows `json.loads`, including combining `\uXXXX`
surrogate pairs; a lone surrogate escape is rejected (Python would build
a lone-surrogate `str`, which a Lean `Char` cannot carry — the protocol
never sends one). Unescaped control characters are rejected (strict
mode, Python's default). -/
def parseStringBody : List Char → Option (List Char × List Char)
  | [] => none
  | '"' :: rest => some ([], rest)
  | '\\' :: 'u' :: h1 :: h2 :: h3 :: h4 :: rest =>
    match hex4Val h1 h2 h3 h4 with
    | none => none
    | some n =>
      if 55296 ≤ n && n < 56320 then
        match rest with
        | '\\' :: 'u' :: g1 :: g2 :: g3 :: g4 :: rest2 =>
          match hex4Val g1 g2 g3 g4 with
          | some m =>
            if 56320 ≤ m && m < 57344 then
              (parseStringBody rest2).map
                (fun p => (Char.ofNat (65536 + (n - 55296) * 1024 + (m - 56320)) :: p.1, p.2))
            else none
          | none => none
        | _ => none
      else if 56320 ≤ n && n < 57344 then none
      else (parseStringBody rest).map (fun p => (Char.ofNat n :: p.1, p.2))
  | '\\' :: e :: rest =>
    let cont := fun (c : Char) =>
      (parseStringBody rest).map (fun p => (c :: p.1, p.2))
    if e = '"' then cont '"'
    else if e = '\\' then cont '\\'
    else if e = '/' then cont '/'
    else if e = 'b' then cont (Char.ofNat 8)
    else if e = 'f' then cont (Char.ofNat 12)
    else if e = 'n' then cont '\n'
    else if e = 'r' then cont '\r'
    else if e = 't' then cont '\t'
    else none
  | c :: rest =>
    if c.toNat < 32 then none
    else (parseStringBody rest).map (fun p => (c :: p.1, p.2))

/-- Decimal value of a digit string. -/
def decimalVal (ds : List Char) : Nat :=
  ds.foldl (fun a c => a * 10 + (c.toNat - 48)) 0

/-- Parse a JSON number. The protocol only carries integers, so a
fraction or exponent part is rejected rather than modelled as a float. -/
def parseNumber (cs : List Char) : Option (Int × List Char) :=
  let (neg, cs1) : Bool × List Char :=
    match cs with
    | '-' :: t => (true, t)
    | t => (false, t)
  match cs1 with
  | c :: _ =>
    if c.isDigit then
      let ds := cs1.takeWhile Char.isDigit
      let rest := cs1.dropWhile Char.isDigit
      match rest with
      | '.' :: _ => none
      | 'e' :: _ => none
      | 'E' :: _ => none
      | _ =>
        let v : Int := Int.ofNat (decimalVal ds)
        some (if neg then -v else v, rest)
    else none
  | [] => none

mutual
/-- Recursive JSON value parser mirroring `json.loads`, fuelled so that
it is structurally recursive; the fuel chosen in `parseJson` always
suffices because every recursive step consumes input. -/
def parseValue : Nat → List Char → Option (Json × List Char)
  | 0, _ => none
  | Nat.succ fuel, cs =>
    match skipWs cs with
    | 'n' :: 'u' :: 'l' :: 'l' :: rest => some (.null, rest)
    | 't' :: 'r' :: 'u' :: 'e' :: rest => some (.bool true, rest)
    | 'f' :: 'a' :: 'l' :: 's' :: 'e' :: rest => some (.bool false, rest)
    | '"' :: rest =>
      (parseStringBody rest).map (fun p => (.str (String.mk p.1), p.2))
    | '[' :: rest =>
      (match skipWs rest with
       | ']' :: rest2 => some (.arr .nil, rest2)
       | cs2 => (parseArrItems fuel cs2).map (fun p => (.arr p.1, p.2)))
    | c :: rest =>
      if c = lbrace then
        (match skipWs rest with
         | r :: rest2 =>
           if r = rbrace then some (.obj .nil, rest2)
           else (parseObjItems fuel (r :: rest2)).map (fun p => (.obj p.1, p.2))
         | [] => none)
      else if c = '-' || c.isDigit then
        (parseNumber (c :: rest)).map (fun p => (.num p.1, p.2))
      else none
    | [] => none

/-- Parse one-or-more comma-separated array items up to `]`. -/
def parseArrItems : Nat → List Char → Option (JsonArr × List Char)
  | 0, _ => none
  | Nat.succ fuel, cs =>
    match parseValue fuel cs with
    | none => none
    | some (v, rest) =>
      match skipWs rest with
      | ',' :: rest2 =>
        (parseArrItems fuel rest2).map (fun p => (.cons v p.1, p.2))
      | ']' :: rest2 => some (.cons v .nil, rest2)
      | _ => none

/-- Parse one-or-more comma-separated object entries up to the closing
brace. -/
def parseObjItems : Nat → List Char → Option (JsonObj × List Char)
  | 0, _ => none
  | Nat.succ fuel, cs =>
    match skipWs cs with
    | '"' :: rest =>
      match parseStringBody rest with
      | none => none
      | some (kcs, rest1) =>
        match skipWs rest1 with
        | ':' :: rest2 =>
          match parseValue fuel rest2 with
          | none => none
          | some (v, rest3) =>
            match skipWs rest3 with
            | ',' :: rest4 =>
              (parseObjItems fuel rest4).map
                (fun p => (.cons (String.mk kcs) v p.1, p.2))
            | r :: rest4 =>
              if r = rbrace then some (.cons (String.mk kcs) v .nil, rest4)
              else none
            | [] => none
        | _ => none
    | _ => none
end

/-- Python `json.loads`: parse a complete document, rejecting trailing
data (Python's "Extra data" error). -/
def parseJson (s : String) : Option Json :=
  match parseValue (s.toList.length + 2) s.toList with
  | some (j, rest) => if (skipWs rest).isEmpty then some j else none
  | none => none

/-- The session states of `OnlinePythonClient.State`. -/
inductive State where
  | disconnected
  | connected
  | initialized
  | waiting_for_code
  | running
  | expecting_output
  | session_killed
  deriving DecidableEq

/-- The payload-routing tags of `OnlinePythonClient.OutputType`. -/
inductive OutputType where
  | output
  | error
  | input
  deriving DecidableEq

/-- The two local output streams payloads are routed to. -/
inductive StdStream where
  | stdout
  | stderr
  deriving DecidableEq

/-- Python exceptions that `handle_message` can raise. -/
inductive Err where
  | assertionError
  | notImplementedError
  | typeError
  | valueError
  | keyError
  | indexError
  | jsonDecodeError
  | stopIteration
  | unicodeDecodeError
  deriving DecidableEq

/-- Observable side effects of the state machine, in program order:
`enterState` is the state property setter (each mutation is logged),
`send` is `websocket.send`, `printTo` is `print(message, file=...)`
(Python's `print` appends a newline after the carried text), and
`logExit` is the exit log line carrying its severity (`critical = false`
for `logging.info`). -/
inductive Effect where
  | enterState (s : State)
  | send (msg : String)
  | printTo (strm : StdStream) (text : String)
  | logExit (critical : Bool)
  deriving DecidableEq

/-- An inbound websocket message: `websockets.recv` yields text (`str`)
or binary (`bytes`) frames. -/
inductive Msg where
  | text (s : String)
  | binary (bs : List Nat)
  deriving DecidableEq

/-- The mutable client: `OnlinePythonClient`'s protocol-relevant fields.
`files` is the ordered name-to-content mapping (a Python dict preserves
insertion order); the transport and stdin-reader handles are external
collaborators and not modelled. -/
structure Client where
  state : State
  files : List (String × String)
  cli_args : List String
  output_type : Option OutputType
  deriving DecidableEq

/-- Outcome of one `handle_message` call: normal return with the mutated
client and emitted effects, an uncaught exception (with the client as
mutated up to the raise, and the effects emitted before it), or hard
process termination via `os._exit`. -/
inductive HMResult where
  | ok (c : Client) (effects : List Effect)
  | thrown (e : Err) (c : Client) (effects : List Effect)
  | exited (code : Int) (effects : List Effect)
  deriving DecidableEq

/-- `OnlinePythonClient.__init__`: `cli_args=None` is replaced by `[]`;
the state starts DISCONNECTED and `output_type` starts `None`. -/
def OnlinePythonClient.init (files : List (String × String))
    (cli_args : Option (List String)) : Client :=
  { state := .disconnected
    files := files
    cli_args := match cli_args with | none => [] | some l => l
    output_type := none }

/-- `send_list`: the wire message `'42' + json.dumps(l)` it sends. -/
def send_list (l : Json) : String := "42" ++ dumps l

/-- `send_files_and_run`: the run-request message it sends, or the
`StopIteration` that `next(iter(self.files))` raises on an empty dict. -/
def send_files_and_run (c : Client) : Except Err String :=
  match c.files with
  | [] => .error .stopIteration
  | (entry, _) :: _ =>
    .ok (send_list (jarr [.str "code",
      jarr (c.files.map (fun p => jobj [("code", .str p.2), ("file_name", .str p.1)])),
      .str (joinSpace c.cli_args),
      .str entry]))

/-- `send_input`: the wire message forwarding one local input line. -/
def send_input (message : String) : String :=
  send_list (jarr [.str "message", .str message])

/-- `handle_next_user_input`: one decoded stdin line (newline included as
read) is stripped of its trailing newline and sent as a `"message"`
event; the client state is not consulted or changed. -/
def handle_next_user_input (line : String) : Effect :=
  .send (send_input (pyRstripNl line))

/-- Effects of the stdin listener across successive lines, in arrival
order (the multiplexer processes each completion before re-arming). -/
def processUserInputs (lines : List String) : List Effect :=
  lines.map handle_next_user_input

/-- Python `data[0]` on a JSON value: lists index, strings yield a
one-character string, dicts raise `KeyError` (no key `0`), other values
raise `TypeError`. -/
def pyIndex0 : Json → Except Err Json
  | .arr (.cons x _) => .ok x
  | .arr .nil => .error .indexError
  | .str s =>
    match s.toList with
    | [] => .error .indexError
    | c :: _ => .ok (.str (String.singleton c))
  | .obj _ => .error .keyError
  | _ => .error .typeError

/-- Python `method, string, number = data` on a JSON value: an iterable
of exactly three items unpacks (lists to their items, strings to their
characters, dicts to their keys); wrong lengths raise `ValueError`,
non-iterables raise `TypeError`. -/
def unpack3 : Json → Except Err (Json × Json × Json)
  | .arr (.cons a (.cons b (.cons c .nil))) => .ok (a, b, c)
  | .arr _ => .error .valueError
  | .str s =>
    match s.toList with
    | [a, b, c] =>
      .ok (.str (String.singleton a), .str (String.singleton b), .str (String.singleton c))
    | _ => .error .valueError
  | .obj (.cons k1 _ (.cons k2 _ (.cons k3 _ .nil))) => .ok (.str k1, .str k2, .str k3)
  | .obj _ => .error .valueError
  | _ => .error .typeError

/-- String membership in a JSON array, with Python `==` semantics (a
`str` equals no non-`str`). -/
def jsonArrHasStr : JsonArr → String → Bool
  | .nil, _ => false
  | .cons (.str s) tl, needle => s == needle || jsonArrHasStr tl needle
  | .cons _ tl, needle => jsonArrHasStr tl needle

/-- Key membership in a JSON object. -/
def jsonObjHasKey : JsonObj → String → Bool
  | .nil, _ => false
  | .cons k _ tl, needle => k == needle || jsonObjHasKey tl needle

/-- Python `needle in x` on a JSON value: substring test on strings,
membership on lists, key membership on dicts; numbers, booleans and
`None` raise `TypeError`. -/
def pyContains (needle : String) : Json → Except Err Bool
  | .str s => .ok (strContains s needle)
  | .arr xs => .ok (jsonArrHasStr xs needle)
  | .obj kvs => .ok (jsonObjHasKey kvs needle)
  | _ => .error .typeError

/-- Python `int(s)` on a string: surrounding whitespace allowed, an
optional sign, then decimal digits (digit-group underscores are not
modelled; the protocol never sends them); anything else raises
`ValueError`. -/
def pyIntOfString (s : String) : Except Err Int :=
  let cs := (s.toList.dropWhile Char.isWhitespace).reverse.dropWhile Char.isWhitespace |>.reverse
  let (neg, ds) : Bool × List Char :=
    match cs with
    | '-' :: t => (true, t)
    | '+' :: t => (false, t)
    | t => (false, t)
  if ds ≠ [] && ds.all Char.isDigit then
    .ok (if neg then -(Int.ofNat (decimalVal ds)) else Int.ofNat (decimalVal ds))
  else .error .valueError

/-- Python `int(x)` on a JSON value: integers pass through, booleans
become 0/1, numeric strings parse, anything else raises. -/
def pyInt : Json → Except Err Int
  | .num n => .ok n
  | .bool b => .ok (if b then 1 else 0)
  | .str s => pyIntOfString s
  | _ => .error .typeError

/-- The RUNNING-state `'45'` branch of `handle_message` (lines 124-138):
assert the literal `'451-'` framing, `json.loads` the body after it, and
match `data[0]` against the three header names, remembering the
output-routing tag and entering EXPECTING_OUTPUT; an unknown name raises
`NotImplementedError`. -/
def handle45 (c : Client) (s : String) : HMResult :=
  if pyStartswith "451-" s then
    match parseJson (pyDrop 4 s) with
    | none => .thrown .jsonDecodeError c []
    | some data =>
      match pyIndex0 data with
      | .error e => .thrown e c []
      | .ok d0 =>
        match d0 with
        | .str name =>
          if name = "output" then
            .ok { c with output_type := some .output, state := .expecting_output }
              [.enterState .expecting_output]
          else if name = "err" then
            .ok { c with output_type := some .error, state := .expecting_output }
              [.enterState .expecting_output]
          else if name = "input" then
            .ok { c with output_type := some .input, state := .expecting_output }
              [.enterState .expecting_output]
          else .thrown .notImplementedError c []
        | _ => .thrown .notImplementedError c []
  else .thrown .assertionError c []

/-- The RUNNING-state `'42'` branch of `handle_message` (lines 139-154):
`json.loads` the body, unpack it three ways, and on the `'exit'` event
log at info/critical severity according to whether the message contains
`'Process exited'`, then call `os._exit` — with `None` itself when the
code is absent (a `TypeError`), else with `int(code)`. Any other event
name raises `NotImplementedError`. -/
def handle42 (c : Client) (s : String) : HMResult :=
  match parseJson (pyDrop 2 s) with
  | none => .thrown .jsonDecodeError c []
  | some data =>
    match unpack3 data with
    | .error e => .thrown e c []
    | .ok (method, strv, number) =>
      match method with
      | .str name =>
        if name = "exit" then
          match pyContains "Process exited" strv with
          | .error e => .thrown e c []
          | .ok isIn =>
            match number with
            | .null => .thrown .typeError c [.logExit (!isIn)]
            | _ =>
              match pyInt number with
              | .error e => .thrown e c [.logExit (!isIn)]
              | .ok n => .exited n [.logExit (!isIn)]
        else .thrown .notImplementedError c []
      | _ => .thrown .notImplementedError c []

/-- The RUNNING-state dispatch of `handle_message` (lines 122-160):
match on `message[:2]`; `'41'` enters SESSION_KILLED; anything other
than `'45'`, `'42'`, `'41'` (including a binary frame, whose 2-byte
slice equals none of the string patterns) raises `NotImplementedError`. -/
def handle_running (c : Client) (m : Msg) : HMResult :=
  match m with
  | .binary _ => .thrown .notImplementedError c []
  | .text s =>
    if pyTake 2 s = "45" then handle45 c s
    else if pyTake 2 s = "42" then handle42 c s
    else if pyTake 2 s = "41" then
      .ok { c with state := .session_killed } [.enterState .session_killed]
    else .thrown .notImplementedError c []

/-- The EXPECTING_OUTPUT branch of `handle_message` (lines 162-178):
route the raw payload per `output_type` (stdout / stderr / discard; a
`None` tag would hit the wildcard raise), decoding binary payloads as
UTF-8 only when a stream is selected, then return to RUNNING. The
`output_type` tag is left as it was. -/
def handleExpecting (c : Client) (m : Msg) : HMResult :=
  match c.output_type with
  | none => .thrown .notImplementedError c []
  | some ot =>
    let fileOpt : Option StdStream :=
      match ot with
      | .output => some .stdout
      | .error => some .stderr
      | .input => none
    match fileOpt with
    | none => .ok { c with state := .running } [.enterState .running]
    | some strm =>
      match m with
      | .text s =>
        .ok { c with state := .running } [.printTo strm s, .enterState .running]
      | .binary bs =>
        match utf8Decode bs with
        | none => .thrown .unicodeDecodeError c []
        | some s =>
          .ok { c with state := .running } [.printTo strm s, .enterState .running]

/-- `OnlinePythonClient.handle_message` (lines 109-181), translated
branch by branch. CONNECTED asserts the `'0{'` handshake framing (a
binary frame makes `bytes.startswith(str)` raise `TypeError`);
INITIALIZED asserts the literal `'40'` ack (a binary frame compares
unequal and fails the assert), then sends the run request between the
two logged state mutations; the unlisted states raise
`NotImplementedError` via the wildcard case. -/
def handle_message (c : Client) (m : Msg) : HMResult :=
  match c.state with
  | .disconnected => .thrown .notImplementedError c []
  | .connected =>
    match m with
    | .binary _ => .thrown .typeError c []
    | .text s =>
      if pyStartswith "0\x7b" s then
        .ok { c with state := .initialized } [.enterState .initialized]
      else .thrown .assertionError c []
  | .initialized =>
    match m with
    | .binary _ => .thrown .assertionError c []
    | .text s =>
      if s = "40" then
        let c1 := { c with state := .waiting_for_code }
        match send_files_and_run c1 with
        | .error e => .thrown e c1 [.enterState .waiting_for_code]
        | .ok msg =>
          .ok { c1 with state := .running }
            [.enterState .waiting_for_code, .send msg, .enterState .running]
      else .thrown .assertionError c []
  | .waiting_for_code => .thrown .notImplementedError c []
  | .running => handle_running c m
  | .expecting_output => handleExpecting c m
  | .session_killed => .thrown .notImplementedError c []

/-- Run a message through `handle_message`, keeping the client only on
normal return. -/
def stepClient (c : Client) (m : Msg) : Option Client :=
  match handle_message c m with
  | .ok c' _ => some c'
  | _ => none

/-- Feed a sequence of inbound messages through the state machine. -/
def runMsgs : Client → List Msg → Option Client
  | c, [] => some c
  | c, m :: ms =>
    match stepClient c m with
    | some c' => runMsgs c' ms
    | none => none

/-- Convert an array spine back to a Lean list. -/
def JsonArr.toList : JsonArr → List Json
  | .nil => []
  | .cons x tl => x :: JsonArr.toList tl

/-- Modelled from the spec: the generic packet-codec decode of a
`42<json-array>` wire message into an Event `[name, ...args]` (spec
section 4.1). The client itself has no standalone decoder — inbound `42`
handling lives inside `handle_message` — so the round-trip claim is
checked against this codec-level reading. -/
def decodeEvent (m : String) : Option (String × List Json) :=
  if pyTake 2 m = "42" then
    match parseJson (pyDrop 2 m) with
    | some (.arr (.cons (.str name) args)) => some (name, args.toList)
    | _ => none
  else none

/-- The header-event body of a `45`-prefixed message under the engine
framing `45<index>-<json>`: the characters after the digit sub-index and
its dash delimiter. -/
def headerBody? (s : String) : Option String :=
  match s.toList with
  | '4' :: '5' :: rest =>
    match rest.dropWhile Char.isDigit with
    | '-' :: body => some (String.mk body)
    | _ => none
  | _ => none

/-- Does a header-event body carry one of the three expected header
names `output` / `err` / `input` as the head of a JSON array? -/
def check45name (body : String) : Bool :=
  match parseJson body with
  | some (.arr (.cons (.str nm) _)) => nm == "output" || nm == "err" || nm == "input"
  | _ => false

/-- Is a `42` body the exit event shape `["exit", message, code]` of the
spec's transition table? -/
def isExitShaped (body : String) : Bool :=
  match parseJson body with
  | some (.arr (.cons (.str nm) (.cons _ (.cons _ .nil)))) => nm == "exit"
  | _ => false

/-- Modelled from the spec: the (state, packet) pairs of the transition
table in spec section 4.2, expressed over raw messages through the
packet classification of section 4.1 — CONNECTED consumes an Open
(prefix `0`, body not inspected further: "ignored beyond arrival"),
INITIALIZED an Ack (prefix `40`), RUNNING a header-event with one of the
three expected names, an `["exit", message, code]` event, or a
Disconnect (prefix `41`), and EXPECTING_OUTPUT any raw message. All
binary frames outside EXPECTING_OUTPUT fall outside the table. -/
def tablePair (st : State) (m : Msg) : Bool :=
  match st, m with
  | .connected, .text s => pyStartswith "0" s
  | .initialized, .text s => pyTake 2 s == "40"
  | .running, .text s =>
    (pyTake 2 s == "45" &&
      (match headerBody? s with
       | some b => check45name b
       | none => false))
    || (pyTake 2 s == "42" && isExitShaped (pyDrop 2 s))
    || pyTake 2 s == "41"
  | .expecting_output, _ => true
  | _, _ => false

/-- The unpacking quirk that breaches the spec's "unlisted pairs always
fail" guarantee: a `42` message whose JSON body is a three-key object
with first key `"exit"` is unpacked by `method, string, number = data`
into its keys and then dispatched as an exit event. -/
def exitObjQuirk (st : State) (m : Msg) : Bool :=
  match st, m with
  | .running, .text s =>
    pyTake 2 s == "42" &&
    (match parseJson (pyDrop 2 s) with
     | some (.obj (.cons k1 _ (.cons _ _ (.cons _ _ .nil)))) => k1 == "exit"
     | _ => false)
  | _, _ => false

/-- The states in which `output_type` may be non-null if the spec's
invariant is weakened to the direction the code maintains: whenever the
state is EXPECTING_OUTPUT, a routing tag is present. -/
def routingInvariant (c : Client) : Prop :=
  c.state = .expecting_output → c.output_type ≠ none

instance (c : Client) : Decidable (routingInvariant c) := by
  unfold routingInvariant; infer_instance

/-- The payload text a raw message carries in EXPECTING_OUTPUT: text
frames as-is, binary frames through strict UTF-8 decoding. -/
def decodedPayload : Msg → Option String
  | .text s => some s
  | .binary bs => utf8Decode bs

/-- The routing invariant evaluated on a `handle_message` outcome: it
must hold for the client a normal return or an uncaught exception leaves
behind (a process exit leaves no client). -/
def resultPreserves (r : HMResult) : Prop :=
  match r with
  | .ok c _ => routingInvariant c
  | .thrown _ c _ => routingInvariant c
  | .exited _ _ => True

/-- A sample client in state RUNNING holding one file. -/
def cRun : Client :=
  { state := .running, files := [("a.py", "print(1)")], cli_args := [], output_type := none }

/-- The sample client before the handshake. -/
def cConn : Client := { cRun with state := .connected }

/-- The sample client awaiting the namespace ack. -/
def cInit : Client := { cRun with state := .initialized }

/-- The sample client awaiting an error payload. -/
def cErrExp : Client := { cRun with state := .expecting_output, output_type := some .error }

/-- C1: the spec says an `exit` event whose numeric code is absent
(`null`) terminates the process with status 0, and a present numeric
code becomes the exit status. The second half holds, but on a `null`
code the source's `if number is None: os._exit(number)` branch passes
`None` itself to `os._exit`, which raises `TypeError` instead of
terminating with status 0 — the branch only makes sense as an intended
`os._exit(0)`, so this is a slip in the code. -/
theorem exit_null_code_typeerror :
    handle_message cRun (.text "42[\"exit\",\"Process exited with code 0\",null]")
      = .thrown .typeError cRun [.logExit false]
    ∧ handle_message cRun (.text "42[\"exit\",\"Process exited with code 1\",1]")
      = .exited 1 [.logExit false] := by
  constructor <;> decide

/-- C2 counterexample: after the handshake, ack, a header-event and its
payload, the state is back to RUNNING yet `output_type` still holds
OUTPUT — the code never clears it, refuting "non-null only while
state == EXPECTING_OUTPUT" and "consumed and cleared". -/
theorem pending_kind_not_cleared_cex :
    (runMsgs cConn
      [.text "0\x7b\x7d", .text "40", .text "451-[\"output\"]", .text "hello"]).map
        (fun c => (c.state, c.output_type))
      = some (.running, some .output) := by
  decide

/-- C3 counterexample: the spec's own header framing example
`45-0-["output"]` (sub-index 0) is rejected in RUNNING by the source's
`assert message.startswith('451-')` — the numeric sub-index is not
arbitrary. -/
theorem header_dash_index_rejected_cex :
    handle_message cRun (.text "45-0-[\"output\"]") = .thrown .assertionError cRun [] := by
  decide

/-- C4 counterexample: a `42` message whose body is a JSON object (not
an array, hence not a transition-table packet) with keys
`exit / Process exited / 5` is unpacked into its keys and dispatched as
an exit event: the process terminates with status 5 instead of
reporting a protocol violation. -/
theorem untabled_exit_object_exits_cex :
    tablePair .running (.text "42\x7b\"exit\": 1, \"Process exited\": 2, \"5\": 3\x7d") = false
    ∧ handle_message cRun (.text "42\x7b\"exit\": 1, \"Process exited\": 2, \"5\": 3\x7d")
      = .exited 5 [.logExit false] := by
  constructor <;> decide

/-- C5 counterexample: the claim's concrete instance uses the framing
`45-0-["err"]`, which in RUNNING fails the `'451-'` assertion, and the
following binary payload `b"boom"` arriving in RUNNING also raises —
nothing is written to standard error by this exchange. -/
theorem err_dash_header_boom_cex :
    handle_message cRun (.text "45-0-[\"err\"]") = .thrown .assertionError cRun []
    ∧ handle_message cRun (.binary [98, 111, 111, 109])
      = .thrown .notImplementedError cRun [] := by
  constructor <;> decide

/-- C6: encoding the run request for files `a.py ↦ print(1)` and no
arguments yields `'42' + json.dumps(["code", [files], "", "a.py"])`
exactly, and decoding that message with the codec-level event decode
yields the event named `code` whose first argument lists the one file
object with its `code` and `file_name` fields. -/
theorem run_request_roundtrip :
    send_files_and_run cRun
      = .ok "42[\"code\", [\x7b\"code\": \"print(1)\", \"file_name\": \"a.py\"\x7d], \"\", \"a.py\"]"
    ∧ decodeEvent "42[\"code\", [\x7b\"code\": \"print(1)\", \"file_name\": \"a.py\"\x7d], \"\", \"a.py\"]"
      = some ("code",
          [jarr [jobj [("code", .str "print(1)"), ("file_name", .str "a.py")]],
           .str "", .str "a.py"]) := by
  exact ⟨rfl, rfl⟩

/-- C8 counterexample: `["exit","bye"]` is a well-formed two-element
JSON array with the expected event name, yet the three-way unpacking
raises `ValueError`; conversely `451-["input"]` carries a one-element
body and is decoded without failure — decode success is not "two or
more elements". -/
theorem two_element_exit_event_fails_cex :
    parseJson "[\"exit\",\"bye\"]" = some (jarr [.str "exit", .str "bye"])
    ∧ handle_message cRun (.text "42[\"exit\",\"bye\"]") = .thrown .valueError cRun []
    ∧ handle_message cRun (.text "451-[\"input\"]")
      = .ok { cRun with output_type := some .input, state := .expecting_output }
          [.enterState .expecting_output] := by
  refine ⟨rfl, by decide, by decide⟩

theorem mk_toList (s : String) : String.mk s.toList = s := rfl

theorem toList_append (s t : String) : (s ++ t).toList = s.toList ++ t.toList :=
  String.data_append s t

theorem dropWhile_nl_of_not_mem {cs : List Char} (h : '\n' ∉ cs) :
    cs.dropWhile (· == '\n') = cs := by
  cases cs with
  | nil => rfl
  | cons c t =>
    have hc : (c == '\n') = false := by
      simp only [beq_eq_false_iff_ne, ne_eq]
      intro e
      exact h (e ▸ List.mem_cons_self c t)
    simp [List.dropWhile_cons, hc]

theorem rstrip_append_nl (l : String) (h : '\n' ∉ l.toList) : pyRstripNl (l ++ "\n") = l := by
  unfold pyRstripNl
  rw [toList_append]
  have : ("\n" : String).toList = ['\n'] := rfl
  rw [this, List.reverse_append]
  simp only [List.reverse_cons, List.reverse_nil, List.nil_append, List.singleton_append]
  rw [List.dropWhile_cons]
  simp only [beq_self_eq_true, if_true]
  rw [dropWhile_nl_of_not_mem (by simpa using h), List.reverse_reverse]
  exact mk_toList l

/-- C9: every newline-terminated stdin line is stripped of its trailing
newline and forwarded as exactly one `"message"` event, in arrival
order; the listener body (`handle_next_user_input` / `send_input`) never
consults the state machine's state, which the embedding reflects by not
taking a client at all. -/
theorem input_lines_message_events :
    ∀ (lines : List String), (∀ l ∈ lines, '\n' ∉ l.toList) →
      processUserInputs (lines.map (· ++ "\n"))
        = lines.map (fun l => .send (send_list (jarr [.str "message", .str l]))) := by
  intro lines h
  induction lines with
  | nil => rfl
  | cons l tl ih =>
    simp only [List.map_cons, processUserInputs, handle_next_user_input]
    rw [rstrip_append_nl l (h l (List.mem_cons_self l tl))]
    have := ih (fun x hx => h x (List.mem_cons_of_mem l hx))
    simp only [processUserInputs] at this
    rw [this]
    rfl

/-- C9 witness: two concrete typed-ahead lines produce exactly one
`"message"` event each, in order. -/
theorem input_lines_message_events_witness :
    processUserInputs ["abc\n", "hi\n"]
      = [.send (send_list (jarr [.str "message", .str "abc"])),
         .send (send_list (jarr [.str "message", .str "hi"]))] := by
  have := input_lines_message_events ["abc", "hi"] (by decide)
  simpa using this

/-- C10: constructing the client with `cli_args=None` gives the same
client as an empty argument list, and the run request it would send
carries the empty string as its joined-arguments field. -/
theorem none_cli_args_empty :
    ∀ (files : List (String × String)),
      OnlinePythonClient.init files none = OnlinePythonClient.init files (some [])
      ∧ ∀ (entry code : String) (rest : List (String × String)),
          files = (entry, code) :: rest →
          send_files_and_run (OnlinePythonClient.init files none)
            = .ok (send_list (jarr [.str "code",
                jarr (files.map (fun p => jobj [("code", .str p.2), ("file_name", .str p.1)])),
                .str "", .str entry])) := by
  intro files
  refine ⟨rfl, ?_⟩
  intro entry code rest hf
  subst hf
  rfl

/-- C10 witness: the equivalence at one concrete file set. -/
theorem none_cli_args_empty_witness :
    OnlinePythonClient.init [("a.py", "print(1)")] none
      = OnlinePythonClient.init [("a.py", "print(1)")] (some [])
    ∧ send_files_and_run (OnlinePythonClient.init [("a.py", "print(1)")] none)
      = .ok (send_list (jarr [.str "code",
          jarr ([(("a.py" : String), ("print(1)" : String))].map
            (fun p => jobj [("code", .str p.2), ("file_name", .str p.1)])),
          .str "", .str "a.py"])) :=
  ⟨(none_cli_args_empty [("a.py", "print(1)")]).1,
   (none_cli_args_empty [("a.py", "print(1)")]).2 "a.py" "print(1)" [] rfl⟩

/-- C7: an Ack (`'40'`) in INITIALIZED logs the transition into
WAITING_FOR_CODE, sends exactly one event — the `"code"` run request —
and logs the transition into RUNNING, in that order: no other effect
(in particular no output processing) happens before the run request is
sent, and the call returns with the state set to RUNNING. -/
theorem ack_sends_single_code_event :
    ∀ (c : Client) (entry code : String) (rest : List (String × String)),
      c.state = .initialized → c.files = (entry, code) :: rest →
      handle_message c (.text "40")
        = .ok { c with state := .running }
            [.enterState .waiting_for_code,
             .send (send_list (jarr [.str "code",
               jarr (c.files.map (fun p => jobj [("code", .str p.2), ("file_name", .str p.1)])),
               .str (joinSpace c.cli_args), .str entry])),
             .enterState .running] := by
  intro c entry code rest hs hf
  rcases c with ⟨st, files, args, ot⟩
  simp only at hs hf
  subst hs
  subst hf
  rfl

/-- C7 witness: the Ack transition at a concrete client. -/
theorem ack_sends_single_code_event_witness :
    handle_message cInit (.text "40")
      = .ok { cInit with state := .running }
          [.enterState .waiting_for_code,
           .send (send_list (jarr [.str "code",
             jarr (cInit.files.map (fun p => jobj [("code", .str p.2), ("file_name", .str p.1)])),
             .str (joinSpace cInit.cli_args), .str "a.py"])),
           .enterState .running] :=
  ack_sends_single_code_event cInit "a.py" "print(1)" [] rfl rfl

/-- C3 amended: the claim as written fails because the sub-index is not
arbitrary — the source asserts the literal `'451-'` framing (see the
counterexample). With that framing, a header-event in RUNNING is
decoded: receiving `451-["output"]` enters EXPECTING_OUTPUT remembering
the OUTPUT tag, and the next raw message `"hello"` is written (via
Python's `print`) to standard output with the machine back in RUNNING. -/
theorem header_451_pairing_amended :
    ∀ (c : Client), c.state = .running →
      handle_message c (.text "451-[\"output\"]")
        = .ok { c with output_type := some .output, state := .expecting_output }
            [.enterState .expecting_output]
      ∧ handle_message { c with output_type := some .output, state := .expecting_output }
          (.text "hello")
        = .ok { c with output_type := some .output, state := .running }
            [.printTo .stdout "hello", .enterState .running] := by
  intro c hs
  rcases c with ⟨st, files, args, ot⟩
  simp only at hs
  subst hs
  exact ⟨rfl, rfl⟩

/-- C3 witness: the amended header/payload pairing at a concrete
client. -/
theorem header_451_pairing_amended_witness :
    handle_message cRun (.text "451-[\"output\"]")
      = .ok { cRun with output_type := some .output, state := .expecting_output }
          [.enterState .expecting_output]
    ∧ handle_message { cRun with output_type := some .output, state := .expecting_output }
        (.text "hello")
      = .ok { cRun with output_type := some .output, state := .running }
          [.printTo .stdout "hello", .enterState .running] :=
  header_451_pairing_amended cRun rfl

/-- C5 amended: the claim's general routing statement holds — in
EXPECTING_OUTPUT any raw message is routed per `output_type` (OUTPUT to
standard output, ERROR to standard error, INPUT_REQUEST discarded), the
next state is RUNNING, and a binary payload is decoded as UTF-8 text
first — but its concrete instance must use the `451-` framing (see the
counterexample): it is `451-["err"]` then `b"boom"` that writes the
text `"boom"` to standard error. -/
theorem expecting_output_routing_amended :
    ∀ (c : Client) (m : Msg) (s : String), c.state = .expecting_output →
      decodedPayload m = some s →
      (c.output_type = some .output →
        handle_message c m
          = .ok { c with state := .running } [.printTo .stdout s, .enterState .running])
      ∧ (c.output_type = some .error →
        handle_message c m
          = .ok { c with state := .running } [.printTo .stderr s, .enterState .running])
      ∧ (c.output_type = some .input →
        handle_message c m = .ok { c with state := .running } [.enterState .running]) := by
  intro c m s hs hdec
  rcases c with ⟨st, files, args, ot⟩
  simp only at hs
  subst hs
  refine ⟨?_, ?_, ?_⟩ <;> intro hot <;> simp only at hot <;> subst hot <;>
    cases m with
    | text t =>
      cases hdec
      rfl
    | binary bs =>
      simp only [decodedPayload] at hdec
      simp only [handle_message, handleExpecting, hdec]

/-- C5 witness: `b"boom"` arriving while the ERROR tag is pending is
UTF-8 decoded and written to standard error, returning to RUNNING. -/
theorem expecting_output_routing_amended_witness :
    handle_message cErrExp (.binary [98, 111, 111, 109])
      = .ok { cErrExp with state := .running } [.printTo .stderr "boom", .enterState .running] :=
  (expecting_output_routing_amended cErrExp (.binary [98, 111, 111, 109]) "boom" rfl
    (by decide)).2.1 rfl

/-- C2 amended: the code never clears `output_type` (see the
counterexample), so the spec's invariant must be weakened to the
direction the code maintains: after every `handle_message` call,
`output_type` is non-null whenever the state is EXPECTING_OUTPUT; and
when a payload is consumed in EXPECTING_OUTPUT the state returns to
RUNNING with `output_type` left holding its previous tag rather than
being cleared. -/
theorem pending_kind_invariant_amended :
    ∀ (c : Client) (m : Msg),
      (routingInvariant c → resultPreserves (handle_message c m))
      ∧ (∀ (ot : OutputType), c.state = .expecting_output → c.output_type = some ot →
          ∀ (c' : Client) (effs : List Effect), handle_message c m = .ok c' effs →
            c'.state = .running ∧ c'.output_type = some ot) := by
  intro c m
  constructor
  · intro hinv
    rcases c with ⟨st, files, args, ot⟩
    cases st <;> cases m <;>
      simp only [handle_message, handle_running, handle45, handle42, handleExpecting]
    all_goals repeat' split
    all_goals simp_all [resultPreserves, routingInvariant]
  · intro ot hs hot c' effs hok
    rcases c with ⟨st, files, args, oty⟩
    simp only at hs hot
    subst hs
    subst hot
    cases ot <;> cases m <;>
      simp only [handle_message, handleExpecting] at hok
    all_goals
      first
      | (cases hok; exact ⟨rfl, rfl⟩)
      | (revert hok; split <;>
          (intro hok; first | (cases hok; exact ⟨rfl, rfl⟩) | cases hok))

/-- C2 witness: the weakened invariant holds across a header-event
transition, and a concrete payload consumption returns to RUNNING with
the OUTPUT tag retained. -/
theorem pending_kind_invariant_amended_witness :
    resultPreserves (handle_message cRun (.text "451-[\"output\"]"))
    ∧ (({ cRun with state := .running, output_type := some OutputType.output } : Client).state
          = .running
       ∧ ({ cRun with state := .running, output_type := some OutputType.output } : Client).output_type
          = some .output) :=
  ⟨(pending_kind_invariant_amended cRun (.text "451-[\"output\"]")).1 (by decide),
   (pending_kind_invariant_amended
      { cRun with state := .expecting_output, output_type := some .output }
      (.text "hi")).2 .output rfl rfl
      { cRun with state := .running, output_type := some OutputType.output }
      [.printTo .stdout "hi", .enterState .running] (by decide)⟩

theorem pyTake_two_42 (body : String) : pyTake 2 ("42" ++ body) = "42" := rfl

theorem pyDrop_two_42 (body : String) : pyDrop 2 ("42" ++ body) = body := rfl

/-- C8 amended: success of the `42` path is narrower than the claim's
"well-formed two-or-more-element array with an expected name": the
three-way unpacking demands exactly three elements (a two-element body
raises `ValueError` even with the expected name — see the
counterexample), and a full `["exit", message, code]` body with a string
message and an integer code is processed without protocol failure,
terminating the process with that code. -/
theorem event_decode_conditions_amended :
    ∀ (c : Client) (body : String) (j : Json), c.state = .running →
      parseJson body = some j →
      ((∀ x y : Json, j = jarr [x, y] →
          handle_message c (.text ("42" ++ body)) = .thrown .valueError c [])
       ∧ (∀ (msg : String) (n : Int), j = jarr [.str "exit", .str msg, .num n] →
          handle_message c (.text ("42" ++ body))
            = .exited n [.logExit (!(strContains msg "Process exited"))])) := by
  intro c body j hs hp
  rcases c with ⟨st, files, args, ot⟩
  simp only at hs
  subst hs
  have h45 : ¬("42" : String) = "45" := by decide
  constructor
  · intro x y hj
    subst hj
    simp only [handle_message, handle_running, pyTake_two_42]
    rw [if_neg h45]
    simp only [if_true]
    unfold handle42
    rw [pyDrop_two_42, hp]
    exact rfl
  · intro msg n hj
    subst hj
    simp only [handle_message, handle_running, pyTake_two_42]
    rw [if_neg h45]
    simp only [if_true]
    unfold handle42
    rw [pyDrop_two_42, hp]
    exact rfl

/-- C8 witness: a concrete three-element exit event is processed and
terminates the process with its code. -/
theorem event_decode_conditions_amended_witness :
    handle_message cRun (.text ("42" ++ "[\"exit\",\"bye\",7]"))
      = .exited 7 [.logExit (!(strContains "bye" "Process exited"))] :=
  (event_decode_conditions_amended cRun "[\"exit\",\"bye\",7]"
    (jarr [.str "exit", .str "bye", .num 7]) rfl (by decide)).2 "bye" 7 rfl

theorem pyStartswith_exists {p s : String} (h : pyStartswith p s = true) :
    ∃ t, s.toList = p.toList ++ t := by
  obtain ⟨t, ht⟩ := List.isPrefixOf_iff_prefix.mp h
  exact ⟨t, ht.symm⟩

theorem take_two_shape {l : List Char} {a b : Char} (h : l.take 2 = [a, b]) :
    ∃ t, l = a :: b :: t := by
  cases l with
  | nil => cases h
  | cons x l1 =>
    cases l1 with
    | nil => simp at h
    | cons y l2 =>
      have h2 : [x, y] = [a, b] := h
      injection h2 with hx h3
      injection h3 with hy _
      exact ⟨l2, by rw [hx, hy]⟩

theorem pyTake_two_eq {s : String} {a b : Char} (h : pyTake 2 s = String.mk [a, b]) :
    ∃ t, s.toList = a :: b :: t := by
  unfold pyTake at h
  injection h with h2
  exact take_two_shape h2

theorem headerBody_of_451 {s : String} (h : pyStartswith "451-" s = true) :
    headerBody? s = some (pyDrop 4 s) := by
  obtain ⟨t, ht⟩ := pyStartswith_exists h
  have ht' : s.toList = '4' :: '5' :: '1' :: '-' :: t := ht
  unfold headerBody? pyDrop
  rw [ht']
  rfl

theorem singleton_ne_two (ch a b : Char) (t : List Char) :
    ¬ String.singleton ch = String.mk (a :: b :: t) := by
  intro h
  have h2 : [ch] = a :: b :: t := congrArg String.toList h
  injection h2 with _ h3
  injection h3

theorem handle45_untabled (c : Client) (s : String)
    (htab : (match headerBody? s with
             | some b => check45name b
             | none => false) = false) :
    ∃ e, handle45 c s = .thrown e c [] := by
  unfold handle45
  by_cases hpre : pyStartswith "451-" s = true
  case neg =>
    rw [if_neg hpre]
    exact ⟨.assertionError, rfl⟩
  case pos =>
    rw [if_pos hpre]
    rw [headerBody_of_451 hpre] at htab
    rcases hpj : parseJson (pyDrop 4 s) with _ | data
    · exact ⟨.jsonDecodeError, rfl⟩
    · have htab2 : check45name (pyDrop 4 s) = false := htab
      unfold check45name at htab2
      rw [hpj] at htab2
      cases data with
      | null => exact ⟨.typeError, rfl⟩
      | bool b => exact ⟨.typeError, rfl⟩
      | num n => exact ⟨.typeError, rfl⟩
      | obj kvs => exact ⟨.keyError, rfl⟩
      | str st =>
        cases hl : st.toList with
        | nil =>
          refine ⟨.indexError, ?_⟩
          have hidx : pyIndex0 (.str st) = .error .indexError := by
            simp only [pyIndex0, hl]
          simp only [hidx]
        | cons ch t1 =>
          refine ⟨.notImplementedError, ?_⟩
          have hidx : pyIndex0 (.str st) = .ok (.str (String.singleton ch)) := by
            simp only [pyIndex0, hl]
          have hne1 : ¬ String.singleton ch = "output" :=
            singleton_ne_two ch 'o' 'u' ['t', 'p', 'u', 't']
          have hne2 : ¬ String.singleton ch = "err" :=
            singleton_ne_two ch 'e' 'r' ['r']
          have hne3 : ¬ String.singleton ch = "input" :=
            singleton_ne_two ch 'i' 'n' ['p', 'u', 't']
          simp only [hidx]
          rw [if_neg hne1, if_neg hne2, if_neg hne3]
      | arr xs =>
        cases xs with
        | nil => exact ⟨.indexError, rfl⟩
        | cons x tl =>
          cases x with
          | null => exact ⟨.notImplementedError, rfl⟩
          | bool b => exact ⟨.notImplementedError, rfl⟩
          | num n => exact ⟨.notImplementedError, rfl⟩
          | arr ys => exact ⟨.notImplementedError, rfl⟩
          | obj kvs => exact ⟨.notImplementedError, rfl⟩
          | str nm =>
            have hnm : (nm == "output" || nm == "err" || nm == "input") = false := htab2
            simp only [Bool.or_eq_false_iff, beq_eq_false_iff_ne, ne_eq] at hnm
            refine ⟨.notImplementedError, ?_⟩
            simp only [pyIndex0]
            rw [if_neg hnm.1.1, if_neg hnm.1.2, if_neg hnm.2]

theorem handle42_untabled (c : Client) (s : String)
    (htab : isExitShaped (pyDrop 2 s) = false)
    (hq : (match parseJson (pyDrop 2 s) with
           | some (.obj (.cons k1 _ (.cons _ _ (.cons _ _ .nil)))) => k1 == "exit"
           | _ => false) = false) :
    ∃ e, handle42 c s = .thrown e c [] := by
  unfold handle42
  rcases hpj : parseJson (pyDrop 2 s) with _ | data
  · exact ⟨.jsonDecodeError, rfl⟩
  · unfold isExitShaped at htab
    rw [hpj] at htab
    rw [hpj] at hq
    cases data with
    | null => exact ⟨.typeError, rfl⟩
    | bool b => exact ⟨.typeError, rfl⟩
    | num n => exact ⟨.typeError, rfl⟩
    | str st =>
      cases hl : st.toList with
      | nil =>
        refine ⟨.valueError, ?_⟩
        have hu : unpack3 (.str st) = .error .valueError := by
          simp only [unpack3, hl]
        simp only [hu]
      | cons a t1 =>
        cases t1 with
        | nil =>
          refine ⟨.valueError, ?_⟩
          have hu : unpack3 (.str st) = .error .valueError := by
            simp only [unpack3, hl]
          simp only [hu]
        | cons b t2 =>
          cases t2 with
          | nil =>
            refine ⟨.valueError, ?_⟩
            have hu : unpack3 (.str st) = .error .valueError := by
              simp only [unpack3, hl]
            simp only [hu]
          | cons d t3 =>
            cases t3 with
            | cons e t4 =>
              refine ⟨.valueError, ?_⟩
              have hu : unpack3 (.str st) = .error .valueError := by
                simp only [unpack3, hl]
              simp only [hu]
            | nil =>
              refine ⟨.notImplementedError, ?_⟩
              have hu : unpack3 (.str st)
                  = .ok (.str (String.singleton a), .str (String.singleton b),
                      .str (String.singleton d)) := by
                simp only [unpack3, hl]
              have hne : ¬ String.singleton a = "exit" :=
                singleton_ne_two a 'e' 'x' ['i', 't']
              simp only [hu]
              rw [if_neg hne]
    | arr xs =>
      cases xs with
      | nil => exact ⟨.valueError, rfl⟩
      | cons a tl =>
        cases tl with
        | nil => exact ⟨.valueError, rfl⟩
        | cons b tl2 =>
          cases tl2 with
          | nil => exact ⟨.valueError, rfl⟩
          | cons d tl3 =>
            cases tl3 with
            | cons e tl4 => exact ⟨.valueError, rfl⟩
            | nil =>
              cases a with
              | null => exact ⟨.notImplementedError, rfl⟩
              | bool bb => exact ⟨.notImplementedError, rfl⟩
              | num n => exact ⟨.notImplementedError, rfl⟩
              | arr ys => exact ⟨.notImplementedError, rfl⟩
              | obj kvs => exact ⟨.notImplementedError, rfl⟩
              | str nm =>
                have hnm : (nm == "exit") = false := htab
                rw [beq_eq_false_iff_ne] at hnm
                refine ⟨.notImplementedError, ?_⟩
                simp only [unpack3]
                rw [if_neg hnm]
    | obj kvs =>
      cases kvs with
      | nil => exact ⟨.valueError, rfl⟩
      | cons k1 v1 tl =>
        cases tl with
        | nil => exact ⟨.valueError, rfl⟩
        | cons k2 v2 tl2 =>
          cases tl2 with
          | nil => exact ⟨.valueError, rfl⟩
          | cons k3 v3 tl3 =>
            cases tl3 with
            | cons k4 v4 tl4 => exact ⟨.valueError, rfl⟩
            | nil =>
              have hk : (k1 == "exit") = false := hq
              rw [beq_eq_false_iff_ne] at hk
              refine ⟨.notImplementedError, ?_⟩
              simp only [unpack3]
              rw [if_neg hk]

/-- C4 amended: every (state, packet) pair outside the transition table
raises an error with the client unchanged and no effect emitted — with
one exception the counterexample forces: a `42` message in RUNNING whose
JSON body is a three-key object with first key `"exit"` is unpacked like
an exit event (and can terminate the process) instead of being reported
as a protocol violation. -/
theorem untabled_pairs_fail_amended :
    ∀ (c : Client) (m : Msg),
      tablePair c.state m = false → exitObjQuirk c.state m = false →
      ∃ e, handle_message c m = .thrown e c [] := by
  intro c m htab hq
  rcases c with ⟨st, files, args, ot⟩
  cases st with
  | disconnected => exact ⟨.notImplementedError, rfl⟩
  | waiting_for_code => exact ⟨.notImplementedError, rfl⟩
  | session_killed => exact ⟨.notImplementedError, rfl⟩
  | expecting_output => cases m <;> simp [tablePair] at htab
  | connected =>
    cases m with
    | binary bs => exact ⟨.typeError, rfl⟩
    | text s =>
      simp only [tablePair] at htab
      have hns : ¬ pyStartswith "0\x7b" s = true := by
        intro hsw
        obtain ⟨t, ht⟩ := pyStartswith_exists hsw
        have ht' : s.toList = '0' :: lbrace :: t := ht
        have : pyStartswith "0" s = true := by
          unfold pyStartswith
          rw [ht']
          rfl
        rw [this] at htab
        cases htab
      refine ⟨.assertionError, ?_⟩
      simp only [handle_message]
      rw [if_neg hns]
  | initialized =>
    cases m with
    | binary bs => exact ⟨.assertionError, rfl⟩
    | text s =>
      simp only [tablePair] at htab
      have hneq : ¬ s = "40" := by
        intro he
        subst he
        exact absurd htab (by decide)
      refine ⟨.assertionError, ?_⟩
      simp only [handle_message]
      rw [if_neg hneq]
  | running =>
    cases m with
    | binary bs => exact ⟨.notImplementedError, rfl⟩
    | text s =>
      simp only [tablePair] at htab
      simp only [exitObjQuirk] at hq
      simp only [handle_message, handle_running]
      by_cases hc45 : pyTake 2 s = "45"
      · rw [if_pos hc45]
        rw [hc45] at htab
        simp only [beq_self_eq_true, Bool.true_and, Bool.or_eq_false_iff] at htab
        exact handle45_untabled _ s htab.1.1
      · by_cases hc42 : pyTake 2 s = "42"
        · rw [if_neg hc45, if_pos hc42]
          rw [hc42] at htab hq
          simp only [beq_self_eq_true, Bool.true_and, Bool.or_eq_false_iff] at htab hq
          exact handle42_untabled _ s htab.1.2 hq
        · by_cases hc41 : pyTake 2 s = "41"
          · rw [hc41] at htab
            simp at htab
          · rw [if_neg hc45, if_neg hc42, if_neg hc41]
            exact ⟨.notImplementedError, rfl⟩

/-- C4 witness: an unknown message prefix in RUNNING raises with the
client unchanged. -/
theorem untabled_pairs_fail_amended_witness :
    ∃ e, handle_message cRun (.text "43[\"ping\"]") = .thrown e cRun [] :=
  untabled_pairs_fail_amended cRun (.text "43[\"ping\"]") (by decide) (by decide)
